import Mathlib

/-!
# Stock Alarm — verification of the alert-evaluation batch job

Shallow embedding of the alert-evaluation logic of the `stock-alarm`
repository (Python/Flask).  Prices and percentages are modelled as exact
rationals (`ℚ`); the arithmetic the claims are about (`-`, `/`, `* 100`,
`>=`, `<=`) is exact on the inputs at stake.  External collaborators
(price API, market-summary API, LLM API, SMTP) are modelled as per-call
oracles supplied to the embedded functions, and every fallible Python
function is embedded as a total Lean function returning `Option`/`Except`.

Embedded sources:
* `scripts/check_alert.py` : `is_threshold_reached`, `process_alert`,
  `check_alerts`
* `app/services/llm.py`    : `get_fallback_comment`, `generate_alert_comment`
* `app/services/stock.py`  : `get_stock_price`
* `app/models.py`          : `Alert`, `AlertLog`
-/

set_option autoImplicit false

namespace StockAlarm

/-- `app/models.py` `Alert` row: the fields read or written by the batch
job.  `threshold_lower` is stored as a negative percentage; `status` is
one of the strings `"active" | "inactive" | "triggered"`.  Timestamps and
the ORM `user` relationship are not needed by any claim and are omitted
(the user's email/uuid only feed the oracled email send). -/
structure Alert where
  id : ℕ
  user_id : ℕ
  stock_code : String
  stock_name : String
  base_price : ℚ
  threshold_upper : Option ℚ
  threshold_lower : Option ℚ
  status : String
  deriving DecidableEq, Repr

/-- `app/models.py` `AlertLog` row as created by `process_alert` (step 7).
`sent_at` (wall-clock timestamp) is omitted.  `threshold_type` is kept as
the `Option String` produced by `is_threshold_reached` (always `some` at
the creation site). -/
structure AlertLog where
  alert_id : ℕ
  user_id : ℕ
  stock_code : String
  base_price : ℚ
  current_price : ℚ
  change_rate : ℚ
  threshold_type : Option String
  email_sent : Bool
  deriving DecidableEq, Repr

/-- `change_rate = (current_price - base_price) / base_price * 100`
(`check_alert.py` lines 45 and 92).  In Python a zero `base_price` raises
`ZeroDivisionError`; in `ℚ` division by zero yields `0`, so theorems that
depend on this value carry the hypothesis `base_price ≠ 0`. -/
def change_rate (base_price current_price : ℚ) : ℚ :=
  (current_price - base_price) / base_price * 100

/-- `check_alert.py` `is_threshold_reached`: upper threshold checked
first with `>=`, then lower with `<=`; returns
`(true, some "upper") | (true, some "lower") | (false, none)`. -/
def is_threshold_reached (alert : Alert) (current_price : ℚ) :
    Bool × Option String :=
  let rate := change_rate alert.base_price current_price
  match alert.threshold_upper with
  | some u =>
    if rate ≥ u then (true, some "upper")
    else
      match alert.threshold_lower with
      | some l => if rate ≤ l then (true, some "lower") else (false, none)
      | none => (false, none)
  | none =>
    match alert.threshold_lower with
    | some l => if rate ≤ l then (true, some "lower") else (false, none)
    | none => (false, none)

/-- The property claimed for the threshold evaluator: crossed iff the
change percent meets a configured bound (equality included), upper wins
when both bounds are met, the kind is `some` exactly when crossed, and
only a single kind is ever reported. -/
def ThresholdSpec (alert : Alert) (current_price : ℚ) : Prop :=
  let pct := change_rate alert.base_price current_price
  let r := is_threshold_reached alert current_price
  (r.1 = true ↔
    ((∃ u, alert.threshold_upper = some u ∧ pct ≥ u) ∨
     (∃ l, alert.threshold_lower = some l ∧ pct ≤ l)))
  ∧ ((∃ u, alert.threshold_upper = some u ∧ pct ≥ u) →
      r = (true, some "upper"))
  ∧ (r.2.isSome ↔ r.1 = true)
  ∧ (r = (true, some "upper") ∨ r = (true, some "lower") ∨ r = (false, none))

/-- Round a rational to the nearest integer, ties to even — models
CPython's `format(x, ".2f")` rounding on a value that the caller's
quantities represent exactly. -/
def roundHalfEven (q : ℚ) : ℤ :=
  let f := ⌊q⌋
  let frac := q - f
  if frac < 1 / 2 then f
  else if 1 / 2 < frac then f + 1
  else if f % 2 = 0 then f else f + 1

/-- Fixed two-decimal rendering of a nonnegative rational, as Python's
`f"{q:.2f}"` renders it (the one caller applies `abs` first). -/
def formatFixed2 (q : ℚ) : String :=
  let n := roundHalfEven (q * 100)
  toString (n / 100) ++ "." ++
    (if n % 100 < 10 then "0" else "") ++ toString (n % 100)

/-- `app/services/llm.py` `get_fallback_comment`: deterministic fallback
sentence built from the stock name, `abs(change_rate)` to two decimals,
and the direction label (`"상승"`/`"하락"`). -/
def get_fallback_comment (stock_name : String) (change_rate : ℚ)
    (threshold_type : String) : String :=
  let direction := if threshold_type = "upper" then "상승" else "하락"
  stock_name ++ "이(가) 등록가 대비 " ++ formatFixed2 (abs change_rate) ++
    "% " ++ direction ++ "하여 설정하신 " ++ direction ++ " 기준에 도달했습니다."

/-- The six-field market summary dict produced by `get_market_summary`
(`app/services/stock.py`) and consumed by `process_alert`. -/
structure MarketSummary where
  kospi : ℚ
  kosdaq : ℚ
  kospi_change : ℚ
  kosdaq_change : ℚ
  kospi_change_rate : ℚ
  kosdaq_change_rate : ℚ
  deriving DecidableEq, Repr

/-- The zeroed default substituted when `get_market_summary` returns
`None` (`check_alert.py` lines 116–125). -/
def zeroMarketSummary : MarketSummary :=
  { kospi := 0, kosdaq := 0, kospi_change := 0, kosdaq_change := 0,
    kospi_change_rate := 0, kosdaq_change_rate := 0 }

/-- Oracle for the external collaborators consulted while processing one
alert: the price fetch result, the market-summary fetch result, the LLM
comment result (`none` = generation failed), and the email send result. -/
structure AlertEnv where
  price : Option ℚ
  market_summary : Option MarketSummary
  llm_comment : Option String
  email_sent : Bool
  deriving DecidableEq, Repr

/-- The `status` string of the result dict of `process_alert`:
`"skipped" | "not_triggered" | "triggered"`. -/
inductive ProcessStatus where
  | skipped
  | not_triggered
  | triggered
  deriving DecidableEq, Repr

/-- The result dict of `process_alert`. -/
structure ProcessResult where
  status : ProcessStatus
  email_sent : Option Bool
  error : Option String
  deriving DecidableEq, Repr

/-- `check_alert.py` `process_alert`, embedded with explicit state: the
returned triple is the result dict, the alert row after the call (the
source mutates `alert.base_price` in place and commits), and the list of
`AlertLog` rows inserted by the call.  The market summary, LLM comment
and email send are read from the oracle; the fallback-comment
substitution (source lines 135–139) is kept even though the comment only
feeds the oracled email. -/
def process_alert (alert : Alert) (env : AlertEnv) :
    ProcessResult × Alert × List AlertLog :=
  match env.price with
  | none =>
    ({ status := .skipped, email_sent := none, error := some "현재가 조회 실패" },
     alert, [])
  | some current_price =>
    let rate := change_rate alert.base_price current_price
    let rt := is_threshold_reached alert current_price
    if rt.1 = true then
      let threshold_type := rt.2
      let _threshold_value : Option ℚ :=
        if threshold_type = some "upper" then alert.threshold_upper
        else alert.threshold_lower
      let _market_summary := env.market_summary.getD zeroMarketSummary
      let _llm_comment := env.llm_comment.getD
        (get_fallback_comment alert.stock_name rate (threshold_type.getD ""))
      let email_sent := env.email_sent
      let log : AlertLog :=
        { alert_id := alert.id, user_id := alert.user_id,
          stock_code := alert.stock_code, base_price := alert.base_price,
          current_price := current_price, change_rate := rate,
          threshold_type := threshold_type, email_sent := email_sent }
      ({ status := .triggered, email_sent := some email_sent, error := none },
       { alert with base_price := current_price }, [log])
    else
      ({ status := .not_triggered, email_sent := none, error := none },
       alert, [])

/-- One entry of the run summary's `errors` list. -/
structure ErrorEntry where
  alert_id : ℕ
  stock_code : String
  error : String
  deriving DecidableEq, Repr

/-- The aggregate summary dict returned by `check_alerts`. -/
structure RunSummary where
  total : ℕ
  checked : ℕ
  triggered : ℕ
  email_sent : ℕ
  email_failed : ℕ
  errors : List ErrorEntry
  deriving DecidableEq, Repr

/-- How one iteration of the `check_alerts` loop behaves for one alert:
either `process_alert` runs normally against its oracle, or an
unexpected exception with message `msg` escapes `process_alert` and is
caught at the loop boundary (`check_alert.py` lines 251–261) before any
mutation of the alert. -/
inductive Behavior where
  | normal (env : AlertEnv)
  | raises (msg : String)
  deriving DecidableEq, Repr

/-- `check_alert.py` `check_alerts`, embedded over the list of active
alerts paired with their per-iteration behaviour.  Returns the summary
dict, the alert rows after the run (in order), and the inserted
`AlertLog` rows (in order).  Each loop iteration touches only its own
alert and adds its own contribution to the counters and lists, so the
source's left-to-right mutable accumulation is embedded as structural
recursion producing the same counters, the same list contents and the
same order. -/
def check_alerts :
    List (Alert × Behavior) → RunSummary × List Alert × List AlertLog
  | [] =>
    ({ total := 0, checked := 0, triggered := 0, email_sent := 0,
       email_failed := 0, errors := [] }, [], [])
  | (alert, b) :: rest =>
    let acc := check_alerts rest
    let s := acc.1
    match b with
    | .raises msg =>
      ({ s with total := s.total + 1,
                errors := ⟨alert.id, alert.stock_code, msg⟩ :: s.errors },
       alert :: acc.2.1, acc.2.2)
    | .normal env =>
      let pr := process_alert alert env
      let r := pr.1
      let trig : ℕ := if r.status = .triggered then 1 else 0
      let sent : ℕ :=
        if r.status = .triggered ∧ r.email_sent.getD false = true then 1 else 0
      let failed : ℕ :=
        if r.status = .triggered ∧ r.email_sent.getD false = false then 1 else 0
      let errs : List ErrorEntry :=
        if r.error.getD "" ≠ "" then
          [⟨alert.id, alert.stock_code, r.error.getD ""⟩]
        else []
      ({ total := s.total + 1, checked := s.checked + 1,
         triggered := trig + s.triggered,
         email_sent := sent + s.email_sent,
         email_failed := failed + s.email_failed,
         errors := errs ++ s.errors },
       pr.2.1 :: acc.2.1, pr.2.2 ++ acc.2.2)

/-- Outcome of one `client.chat.completions.create` call, classified as
the handlers of `generate_alert_comment` classify the raised exception
(`AuthenticationError`; `APIConnectionError | RateLimitError |
APIStatusError`; any other `Exception`). -/
inductive ApiOutcome where
  | success (content : String)
  | authError
  | retryable
  | otherError
  deriving DecidableEq, Repr

/-- `app/services/llm.py` `MAX_RETRIES`. -/
def MAX_RETRIES : ℕ := 3

/-- `app/services/llm.py` `BASE_RETRY_DELAY` (in time units). -/
def BASE_RETRY_DELAY : ℕ := 1

/-- Observable trace of one `generate_alert_comment` invocation: how many
API attempts were made, the `time.sleep` delays in order, and the
returned value (`none` embeds Python `None`). -/
structure LlmTrace where
  attempts : ℕ
  sleeps : List ℕ
  result : Option String
  deriving DecidableEq, Repr

/-- The `for attempt in range(MAX_RETRIES)` loop of
`generate_alert_comment` (`app/services/llm.py` lines 170–226): success
returns the content; `AuthenticationError` returns `None`; a retryable
error on the last attempt returns the fallback, otherwise sleeps
`BASE_RETRY_DELAY * 2 ** attempt` and continues; any other error returns
the fallback.  The fuel argument is the number of loop iterations left
(`MAX_RETRIES - attempt`); the fuel-exhausted line embeds the
post-`for` `return` at line 226. -/
def llm_attempt_loop (oracle : ℕ → ApiOutcome) (fallback : String) :
    ℕ → List ℕ → ℕ → LlmTrace
  | attempt, sleeps, 0 => ⟨attempt, sleeps, some fallback⟩
  | attempt, sleeps, fuel + 1 =>
    match oracle attempt with
    | .success content => ⟨attempt + 1, sleeps, some content⟩
    | .authError => ⟨attempt + 1, sleeps, none⟩
    | .retryable =>
      if attempt = MAX_RETRIES - 1 then ⟨attempt + 1, sleeps, some fallback⟩
      else
        llm_attempt_loop oracle fallback (attempt + 1)
          (sleeps ++ [BASE_RETRY_DELAY * 2 ^ attempt]) fuel
    | .otherError => ⟨attempt + 1, sleeps, some fallback⟩

/-- `app/services/llm.py` `generate_alert_comment`.  `api_key` embeds
`current_app.config.get("OPENAI_API_KEY")`; Python's `if not api_key`
is falsy for both `None` and `""`.  The per-attempt API outcome is an
oracle.  Prompt construction only feeds the oracled API call, so it
contributes nothing observable to the trace. -/
def generate_alert_comment (api_key : Option String)
    (oracle : ℕ → ApiOutcome) (stock_name stock_code : String)
    (change_rate : ℚ) (threshold_type : String)
    (market_summary : MarketSummary) : LlmTrace :=
  if api_key.getD "" = "" then ⟨0, [], none⟩
  else
    llm_attempt_loop oracle
      (get_fallback_comment stock_name change_rate threshold_type)
      0 [] MAX_RETRIES

/-- A JSON value in the position of the `closePrice` field of the quote
API response body. -/
inductive JsonValue where
  | jnull
  | jbool (b : Bool)
  | jnum (q : ℚ)
  | jstr (s : String)
  | jarr
  | jobj
  deriving DecidableEq, Repr

/-- Outcome of the HTTP GET performed by `get_stock_price`: a transport
error (`requests.exceptions.RequestException`, timeouts included), a
non-2xx status (`raise_for_status` raises `HTTPError`, a
`RequestException` subclass), an unparseable body (`response.json()`
raises `ValueError`), or a parsed JSON object whose `closePrice` field
is absent (`none`) or holds the given JSON value. -/
inductive FetchOutcome where
  | netErr
  | httpErr
  | badJson
  | ok (closePrice : Option JsonValue)
  deriving DecidableEq, Repr

/-- A Python exception escaping the embedded function. -/
inductive PyError where
  | typeError
  deriving DecidableEq, Repr

/-- Digit-list value, most significant first. -/
def digitsVal (cs : List Char) : ℕ :=
  cs.foldl (fun a c => a * 10 + (c.toNat - 48)) 0

/-- Remove every occurrence of a character — Python
`str.replace(",", "")` applied with `c = ','`. -/
def stripChar (c : Char) : List Char → List Char
  | [] => []
  | d :: r => if d = c then stripChar c r else d :: stripChar c r

/-- `close_price.replace(",", "")` (`app/services/stock.py` line 213). -/
def replaceCommas (s : String) : String :=
  ⟨stripChar ',' s.data⟩

/-- Drop leading whitespace characters. -/
def dropLeadingWs : List Char → List Char
  | [] => []
  | c :: r => if c.isWhitespace then dropLeadingWs r else c :: r

/-- Strip leading and trailing whitespace — the surrounding-whitespace
tolerance of Python `float(str)`. -/
def trimWs (cs : List Char) : List Char :=
  (dropLeadingWs (dropLeadingWs cs).reverse).reverse

/-- Python `float(s)` on a decimal string literal: optional surrounding
whitespace, optional sign, `digits[.digits]` or `.digits`, optional
exponent.  `none` embeds a `ValueError`.  Non-finite literals
(`inf`/`nan`) and digit-group underscores have no `ℚ` image and are
outside the model (the quote API returns plain comma-grouped decimal
strings). -/
def pyFloatOfString (s : String) : Option ℚ :=
  let cs := trimWs s.toList
  let sgncs : ℚ × List Char :=
    match cs with
    | '+' :: r => (1, r)
    | '-' :: r => (-1, r)
    | r => (1, r)
  let mantExp := sgncs.2.span (fun c => !(c == 'e' || c == 'E'))
  let expVal : Option ℤ :=
    match mantExp.2 with
    | [] => some 0
    | _ :: er =>
      let esd : ℤ × List Char :=
        match er with
        | '+' :: r => (1, r)
        | '-' :: r => (-1, r)
        | r => (1, r)
      if esd.2 ≠ [] ∧ esd.2.all Char.isDigit then
        some (esd.1 * digitsVal esd.2)
      else none
  let mantVal : Option ℚ :=
    match mantExp.1.span Char.isDigit with
    | (ip, []) => if ip = [] then none else some (digitsVal ip : ℚ)
    | (ip, '.' :: fp) =>
      if fp.all Char.isDigit ∧ (ip ≠ [] ∨ fp ≠ []) then
        some ((digitsVal ip : ℚ) + (digitsVal fp : ℚ) / 10 ^ fp.length)
      else none
    | _ => none
  match mantVal, expVal with
  | some m, some e => some (sgncs.1 * m * (10 : ℚ) ^ e)
  | _, _ => none

/-- `app/services/stock.py` `get_stock_price` as a function of the HTTP
outcome.  `Except.error` marks a Python exception propagating to the
caller: the handlers catch `RequestException` and `(ValueError,
KeyError)`, so `float()` applied to a non-string, non-numeric field
raises an uncaught `TypeError`. -/
def get_stock_price (o : FetchOutcome) : Except PyError (Option ℚ) :=
  match o with
  | .netErr => .ok none
  | .httpErr => .ok none
  | .badJson => .ok none
  | .ok none => .ok none
  | .ok (some v) =>
    match v with
    | .jnull => .ok none
    | .jstr s =>
      match pyFloatOfString (replaceCommas s) with
      | some q => .ok (some q)
      | none => .ok none
    | .jnum q => .ok (some q)
    | .jbool b => .ok (some (if b then 1 else 0))
    | .jarr => .error .typeError
    | .jobj => .error .typeError

/-- Pointwise combination of two run results: counters add, lists
append.  Used to relate a run over a concatenation of alert lists to the
runs over the pieces. -/
def combineRun (r₁ r₂ : RunSummary × List Alert × List AlertLog) :
    RunSummary × List Alert × List AlertLog :=
  ({ total := r₁.1.total + r₂.1.total,
     checked := r₁.1.checked + r₂.1.checked,
     triggered := r₁.1.triggered + r₂.1.triggered,
     email_sent := r₁.1.email_sent + r₂.1.email_sent,
     email_failed := r₁.1.email_failed + r₂.1.email_failed,
     errors := r₁.1.errors ++ r₂.1.errors },
   r₁.2.1 ++ r₂.2.1, r₁.2.2 ++ r₂.2.2)

/-- A concrete active alert (spec example scenario 1) used to evaluate
the theorems on closed inputs. -/
def sampleAlert : Alert :=
  { id := 1, user_id := 2, stock_code := "005930", stock_name := "삼성전자",
    base_price := 100000, threshold_upper := some 10,
    threshold_lower := some (-10), status := "active" }

/-- A concrete oracle: price `110000` (a 10% rise), failed market
summary, failed LLM comment, failed email send. -/
def sampleEnv : AlertEnv :=
  { price := some 110000, market_summary := none, llm_comment := none,
    email_sent := false }

/-- A concrete oracle whose price fetch failed. -/
def sampleEnvNoPrice : AlertEnv :=
  { price := none, market_summary := some zeroMarketSummary,
    llm_comment := some "c", email_sent := true }

end StockAlarm

namespace StockAlarm

/-- C1: For every baseline, current price, and optional upper/lower
thresholds (with a nonzero baseline, the only case Python's division
defines), the threshold evaluator reports crossed iff the change percent
is `≥` the upper threshold (when set) or `≤` the lower threshold (when
set); equality counts as crossed; upper is checked first so when both
conditions hold the reported kind is `"upper"`; the kind is non-null
exactly when crossed, and only one kind is ever reported per call. -/
theorem threshold_evaluator_correct (alert : Alert) (current_price : ℚ)
    (hb : alert.base_price ≠ 0) : ThresholdSpec alert current_price := by
  unfold ThresholdSpec is_threshold_reached
  rcases hu : alert.threshold_upper with _ | u <;>
    rcases hl : alert.threshold_lower with _ | l <;>
      simp only [hu, hl] <;> (try split_ifs) <;> simp_all

/-- Witness for C1 at `baseline = 100000`, `current = 110000`,
`upper = 10`, `lower = -10` (spec example scenario 1). -/
theorem threshold_evaluator_correct_witness :
    ThresholdSpec sampleAlert 110000 :=
  threshold_evaluator_correct sampleAlert 110000 (by norm_num [sampleAlert])

/-- C2: For every alert that triggers, `process_alert` inserts exactly
one `AlertLog` row, whatever the email outcome: its `base_price` is the
alert's pre-update baseline (not the rebased value), its
`current_price`/`change_rate` are the observed price and the computed
change percent, its `threshold_type` is the kind that fired, and its
`email_sent` is the email outcome flag. -/
theorem audit_log_exactly_one (alert : Alert) (env : AlertEnv)
    (current_price : ℚ) (hp : env.price = some current_price)
    (ht : (is_threshold_reached alert current_price).1 = true) :
    (process_alert alert env).2.2 =
      [{ alert_id := alert.id, user_id := alert.user_id,
         stock_code := alert.stock_code, base_price := alert.base_price,
         current_price := current_price,
         change_rate := change_rate alert.base_price current_price,
         threshold_type := (is_threshold_reached alert current_price).2,
         email_sent := env.email_sent }] := by
  simp [process_alert, hp, ht]

/-- Witness for C2: the sample alert triggers at price `110000` with a
failed email, and the single inserted row records the pre-run baseline
`100000`, current price `110000`, change `10`%, kind `"upper"`, and the
failed-email flag. -/
theorem audit_log_exactly_one_witness :
    (process_alert sampleAlert sampleEnv).2.2 =
      [{ alert_id := 1, user_id := 2, stock_code := "005930",
         base_price := 100000, current_price := 110000, change_rate := 10,
         threshold_type := some "upper", email_sent := false }] := by
  rw [audit_log_exactly_one sampleAlert sampleEnv 110000 rfl
    (by norm_num [is_threshold_reached, change_rate, sampleAlert])]
  norm_num [sampleAlert, sampleEnv, is_threshold_reached, change_rate]

/-- C3: For every alert that triggers, the alert row after
`process_alert` has its baseline equal to the observed current price and
its status still `"active"` (re-arm, not deactivate), whatever the email
outcome. -/
theorem baseline_rebase (alert : Alert) (env : AlertEnv)
    (current_price : ℚ) (hp : env.price = some current_price)
    (ht : (is_threshold_reached alert current_price).1 = true)
    (hs : alert.status = "active") :
    (process_alert alert env).2.1.base_price = current_price ∧
    (process_alert alert env).2.1.status = "active" := by
  simp [process_alert, hp, ht, hs]

/-- Witness for C3: the sample alert triggers with a failed email send,
and still rebases to `110000` with status `"active"`. -/
theorem baseline_rebase_witness :
    (process_alert sampleAlert sampleEnv).2.1.base_price = 110000 ∧
    (process_alert sampleAlert sampleEnv).2.1.status = "active" :=
  baseline_rebase sampleAlert sampleEnv 110000 rfl
    (by norm_num [is_threshold_reached, change_rate, sampleAlert]) rfl

/-- C7: For every alert that does not trigger — a failed price fetch
yields status `skipped`, an uncrossed threshold yields status
`not_triggered` — the alert row is unchanged and no `AlertLog` row is
inserted. -/
theorem non_trigger_frame (alert : Alert) (env : AlertEnv) :
    ((env.price = none → (process_alert alert env).1.status = .skipped) ∧
     (∀ c, env.price = some c → (is_threshold_reached alert c).1 = false →
        (process_alert alert env).1.status = .not_triggered)) ∧
    ((process_alert alert env).1.status ≠ .triggered →
      (process_alert alert env).2.1 = alert ∧
      (process_alert alert env).2.2 = []) := by
  refine ⟨⟨?_, ?_⟩, ?_⟩
  · intro hp
    simp [process_alert, hp]
  · intro c hc hf
    simp [process_alert, hc, hf]
  · intro hnt
    rcases hp : env.price with _ | c
    · simp [process_alert, hp]
    · by_cases ht : (is_threshold_reached alert c).1 = true
      · exact absurd (by simp [process_alert, hp, ht]) hnt
      · simp only [Bool.not_eq_true] at ht
        simp [process_alert, hp, ht]

/-- Witness for C7: the sample alert under a failed price fetch is
skipped, left unchanged, with no audit row. -/
theorem non_trigger_frame_witness :
    (process_alert sampleAlert sampleEnvNoPrice).1.status = .skipped ∧
    (process_alert sampleAlert sampleEnvNoPrice).2.1 = sampleAlert ∧
    (process_alert sampleAlert sampleEnvNoPrice).2.2 = [] := by
  have h := non_trigger_frame sampleAlert sampleEnvNoPrice
  exact ⟨h.1.1 rfl, h.2 (by simp [process_alert, sampleEnvNoPrice])⟩

/-- Each iteration of the `check_alerts` loop contributes independently,
so a run over a concatenation is the pointwise combination of the runs
over the pieces. -/
theorem check_alerts_append (l₁ l₂ : List (Alert × Behavior)) :
    check_alerts (l₁ ++ l₂) = combineRun (check_alerts l₁) (check_alerts l₂) := by
  induction l₁ with
  | nil => simp [check_alerts, combineRun]
  | cons hd tl ih =>
    obtain ⟨alert, b⟩ := hd
    cases b <;>
      simp [check_alerts, combineRun, ih, Prod.ext_iff, RunSummary.mk.injEq] <;>
      omega

/-- C4: A single-alert exception never aborts the run.  If the iteration
for alert `a` raises (message `msg`), then: the alerts before and after
`a` produce exactly the row updates of the runs over those sublists
alone — which are also exactly the row updates of the run without `a`;
the audit rows are those of the run without `a`; an error entry keyed by
`a`'s id and ticker is recorded in place; `a` itself is left unmodified
in the row list; and every other alert is still counted as checked. -/
theorem failure_isolation (l₁ l₂ : List (Alert × Behavior)) (a : Alert)
    (msg : String) :
    (check_alerts (l₁ ++ (a, Behavior.raises msg) :: l₂)).2.1 =
      (check_alerts l₁).2.1 ++ a :: (check_alerts l₂).2.1 ∧
    (check_alerts (l₁ ++ l₂)).2.1 =
      (check_alerts l₁).2.1 ++ (check_alerts l₂).2.1 ∧
    (check_alerts (l₁ ++ (a, Behavior.raises msg) :: l₂)).2.2 =
      (check_alerts (l₁ ++ l₂)).2.2 ∧
    (check_alerts (l₁ ++ (a, Behavior.raises msg) :: l₂)).1.errors =
      (check_alerts l₁).1.errors ++
        ⟨a.id, a.stock_code, msg⟩ :: (check_alerts l₂).1.errors ∧
    (check_alerts (l₁ ++ (a, Behavior.raises msg) :: l₂)).1.checked =
      (check_alerts (l₁ ++ l₂)).1.checked := by
  have h1 := check_alerts_append l₁ ((a, Behavior.raises msg) :: l₂)
  have h2 := check_alerts_append l₁ l₂
  refine ⟨?_, ?_, ?_, ?_, ?_⟩ <;> simp [h1, h2, check_alerts, combineRun]

/-- C8 counterexample: a run over a single alert whose iteration raises
no exception but whose price fetch fails (the documented "skip"
degradation) still records an entry in the run summary's errors list, so
skips do produce error entries. -/
theorem errors_not_only_exceptions :
    (check_alerts [(sampleAlert, Behavior.normal sampleEnvNoPrice)]).1.errors =
      [⟨sampleAlert.id, sampleAlert.stock_code, "현재가 조회 실패"⟩] ∧
    (check_alerts [(sampleAlert, Behavior.normal sampleEnvNoPrice)]).1.errors ≠
      [] := by
  constructor <;> simp [check_alerts, process_alert, sampleEnvNoPrice]

/-- C8 (amended): an entry appears in the run summary's errors list
exactly for the alerts whose iteration raised an unexpected exception
and for the alerts whose price fetch failed (the skip path, with error
string `"현재가 조회 실패"`); a failed market summary, a failed commentary,
and a failed email produce no entry. -/
theorem errors_list_characterization (l : List (Alert × Behavior)) :
    (check_alerts l).1.errors = l.filterMap (fun ab =>
      match ab.2 with
      | .raises msg => some ⟨ab.1.id, ab.1.stock_code, msg⟩
      | .normal env =>
        if env.price = none then
          some ⟨ab.1.id, ab.1.stock_code, "현재가 조회 실패"⟩
        else none) := by
  induction l with
  | nil => simp [check_alerts]
  | cons hd tl ih =>
    obtain ⟨alert, b⟩ := hd
    cases b with
    | raises msg => simp [check_alerts, ih]
    | normal env =>
      rcases hp : env.price with _ | c
      · simp [check_alerts, ih, process_alert, hp]
      · by_cases ht : (is_threshold_reached alert c).1 = true
        · simp [check_alerts, ih, process_alert, hp, ht]
        · simp only [Bool.not_eq_true] at ht
          simp [check_alerts, ih, process_alert, hp, ht]

/-- C10: the aggregate summary of every run satisfies
`triggered = email_sent + email_failed`, `checked ≤ total` (both counts
are naturals, so `0 ≤ checked` holds by type), and every entry of the
errors list carries the id and ticker of one of the alerts of the run. -/
theorem run_summary_invariants (l : List (Alert × Behavior)) :
    (check_alerts l).1.triggered =
      (check_alerts l).1.email_sent + (check_alerts l).1.email_failed ∧
    (check_alerts l).1.checked ≤ (check_alerts l).1.total ∧
    ∀ e ∈ (check_alerts l).1.errors, ∃ ab ∈ l,
      e.alert_id = ab.1.id ∧ e.stock_code = ab.1.stock_code := by
  induction l with
  | nil => simp [check_alerts]
  | cons hd tl ih =>
    obtain ⟨alert, b⟩ := hd
    obtain ⟨ih1, ih2, ih3⟩ := ih
    cases b with
    | raises msg =>
      refine ⟨by simpa [check_alerts] using ih1,
              by simp [check_alerts]; omega, ?_⟩
      intro e he
      simp only [check_alerts, List.mem_cons] at he
      rcases he with he | he
      · exact ⟨(alert, .raises msg), List.mem_cons_self _ _, by simp [he]⟩
      · obtain ⟨ab, hab, h⟩ := ih3 e he
        exact ⟨ab, List.mem_cons_of_mem _ hab, h⟩
    | normal env =>
      refine ⟨?_, by simp [check_alerts]; omega, ?_⟩
      · simp only [check_alerts]
        rcases hs : (process_alert alert env).1.status with _ | _ | _ <;>
          rcases hm : (process_alert alert env).1.email_sent.getD false with
            _ | _ <;>
          simp [hs, hm] <;> omega
      · intro e he
        simp only [check_alerts, List.mem_append] at he
        rcases he with he | he
        · by_cases hz : (process_alert alert env).1.error.getD "" = ""
          · simp [hz] at he
          · simp [hz] at he
            exact ⟨(alert, .normal env), List.mem_cons_self _ _, by simp [he]⟩
        · obtain ⟨ab, hab, h⟩ := ih3 e he
          exact ⟨ab, List.mem_cons_of_mem _ hab, h⟩

/-- Witness for C10: in a one-alert run with a failed price fetch, the
single error entry is traced back to that alert's id and ticker by the
invariant. -/
theorem run_summary_invariants_witness :
    ∃ ab ∈ [(sampleAlert, Behavior.normal sampleEnvNoPrice)],
      (⟨sampleAlert.id, sampleAlert.stock_code,
          "현재가 조회 실패"⟩ : ErrorEntry).alert_id = ab.1.id ∧
      (⟨sampleAlert.id, sampleAlert.stock_code,
          "현재가 조회 실패"⟩ : ErrorEntry).stock_code = ab.1.stock_code :=
  (run_summary_invariants [(sampleAlert, Behavior.normal sampleEnvNoPrice)]).2.2
    ⟨sampleAlert.id, sampleAlert.stock_code, "현재가 조회 실패"⟩
    (by simp [check_alerts, process_alert, sampleEnvNoPrice])

/-- C5: with a configured credential, the API call is attempted at most
`MAX_RETRIES = 3` times; the waits taken are exactly the prefix of
`[1, 2]` (`delay = BASE_RETRY_DELAY * 2 ^ attempt` for attempts `0`,
`1`) determined by how many attempts followed the first — so the wait
between attempts 1 and 2 is 1 time unit and the wait between attempts 2
and 3 is 2; an authentication-class error on the first call yields
exactly one attempt and no wait. -/
theorem llm_retry_bound (api_key : Option String) (oracle : ℕ → ApiOutcome)
    (stock_name stock_code : String) (change_rate : ℚ)
    (threshold_type : String) (market_summary : MarketSummary)
    (hk : api_key.getD "" ≠ "") :
    (generate_alert_comment api_key oracle stock_name stock_code change_rate
        threshold_type market_summary).attempts ≤ MAX_RETRIES ∧
    (generate_alert_comment api_key oracle stock_name stock_code change_rate
        threshold_type market_summary).sleeps =
      [1, 2].take
        ((generate_alert_comment api_key oracle stock_name stock_code
            change_rate threshold_type market_summary).attempts - 1) ∧
    (oracle 0 = ApiOutcome.authError →
      (generate_alert_comment api_key oracle stock_name stock_code
          change_rate threshold_type market_summary).attempts = 1 ∧
      (generate_alert_comment api_key oracle stock_name stock_code
          change_rate threshold_type market_summary).sleeps = []) := by
  rcases h0 : oracle 0 <;> rcases h1 : oracle 1 <;> rcases h2 : oracle 2 <;>
    simp [generate_alert_comment, llm_attempt_loop, MAX_RETRIES,
      BASE_RETRY_DELAY, hk, h0, h1, h2]

/-- Witness for C5: a configured key and an oracle that always raises a
retryable error give 3 attempts with waits `[1, 2]`. -/
theorem llm_retry_bound_witness :
    (generate_alert_comment (some "k") (fun _ => ApiOutcome.retryable)
        "삼성전자" "005930" 10 "upper" zeroMarketSummary).attempts ≤
      MAX_RETRIES ∧
    (generate_alert_comment (some "k") (fun _ => ApiOutcome.retryable)
        "삼성전자" "005930" 10 "upper" zeroMarketSummary).sleeps =
      [1, 2].take
        ((generate_alert_comment (some "k") (fun _ => ApiOutcome.retryable)
            "삼성전자" "005930" 10 "upper" zeroMarketSummary).attempts - 1) ∧
    ((fun _ => ApiOutcome.retryable) 0 = ApiOutcome.authError →
      (generate_alert_comment (some "k") (fun _ => ApiOutcome.retryable)
          "삼성전자" "005930" 10 "upper" zeroMarketSummary).attempts = 1 ∧
      (generate_alert_comment (some "k") (fun _ => ApiOutcome.retryable)
          "삼성전자" "005930" 10 "upper" zeroMarketSummary).sleeps = []) :=
  llm_retry_bound (some "k") (fun _ => ApiOutcome.retryable) "삼성전자"
    "005930" 10 "upper" zeroMarketSummary (by simp)

/-- C6: the commentary generator never raises (it is a total function of
its oracle); it returns `none` exactly when no credential is configured
(checked once up front — zero attempts, before any API call) or when an
authentication-class error is raised at whichever attempt is reached; on
exhausting all retryable attempts, or on a non-auth unexpected error at
any reached attempt, it returns the deterministic fallback sentence
`get_fallback_comment stock_name change_rate threshold_type` (built from
the stock name, `abs(change_rate)` to two decimals, and the direction
label). -/
theorem llm_result_classification (api_key : Option String)
    (oracle : ℕ → ApiOutcome) (stock_name stock_code : String)
    (change_rate : ℚ) (threshold_type : String)
    (market_summary : MarketSummary) :
    ((generate_alert_comment api_key oracle stock_name stock_code
        change_rate threshold_type market_summary).result = none ↔
      (api_key.getD "" = "" ∨ oracle 0 = ApiOutcome.authError ∨
        (oracle 0 = ApiOutcome.retryable ∧
          oracle 1 = ApiOutcome.authError) ∨
        (oracle 0 = ApiOutcome.retryable ∧
          oracle 1 = ApiOutcome.retryable ∧
          oracle 2 = ApiOutcome.authError))) ∧
    (api_key.getD "" = "" →
      generate_alert_comment api_key oracle stock_name stock_code
        change_rate threshold_type market_summary = ⟨0, [], none⟩) ∧
    (api_key.getD "" ≠ "" →
      (∀ i, i < MAX_RETRIES → oracle i = ApiOutcome.retryable) →
      (generate_alert_comment api_key oracle stock_name stock_code
          change_rate threshold_type market_summary).result =
        some (get_fallback_comment stock_name change_rate threshold_type)) ∧
    (∀ i, i < MAX_RETRIES → api_key.getD "" ≠ "" →
      (∀ j, j < i → oracle j = ApiOutcome.retryable) →
      oracle i = ApiOutcome.otherError →
      (generate_alert_comment api_key oracle stock_name stock_code
          change_rate threshold_type market_summary).result =
        some (get_fallback_comment stock_name change_rate threshold_type)) := by
  refine ⟨?_, ?_, ?_, ?_⟩
  · by_cases hk : api_key.getD "" = ""
    · simp [generate_alert_comment, hk]
    · rcases h0 : oracle 0 <;> rcases h1 : oracle 1 <;> rcases h2 : oracle 2 <;>
        simp [generate_alert_comment, llm_attempt_loop, MAX_RETRIES,
          BASE_RETRY_DELAY, hk, h0, h1, h2]
  · intro hk
    simp [generate_alert_comment, hk]
  · intro hk hall
    have hr0 := hall 0 (by norm_num [MAX_RETRIES])
    have hr1 := hall 1 (by norm_num [MAX_RETRIES])
    have hr2 := hall 2 (by norm_num [MAX_RETRIES])
    simp [generate_alert_comment, llm_attempt_loop, MAX_RETRIES,
      BASE_RETRY_DELAY, hk, hr0, hr1, hr2]
  · intro i hi hk hj hoth
    have hi3 : i < 3 := by simpa [MAX_RETRIES] using hi
    interval_cases i
    · simp [generate_alert_comment, llm_attempt_loop, MAX_RETRIES,
        BASE_RETRY_DELAY, hk, hoth]
    · have hr0 := hj 0 (by norm_num)
      simp [generate_alert_comment, llm_attempt_loop, MAX_RETRIES,
        BASE_RETRY_DELAY, hk, hr0, hoth]
    · have hr0 := hj 0 (by norm_num)
      have hr1 := hj 1 (by norm_num)
      simp [generate_alert_comment, llm_attempt_loop, MAX_RETRIES,
        BASE_RETRY_DELAY, hk, hr0, hr1, hoth]

/-- Witness for C6: with a configured key and an auth-class error on the
first attempt, the generator returns `none`. -/
theorem llm_result_classification_witness :
    (generate_alert_comment (some "k") (fun _ => ApiOutcome.authError)
        "삼성전자" "005930" 10 "upper" zeroMarketSummary).result = none :=
  (llm_result_classification (some "k") (fun _ => ApiOutcome.authError)
      "삼성전자" "005930" 10 "upper" zeroMarketSummary).1.mpr
    (Or.inr (Or.inl rfl))

/-- C9, evaluated at the failing input: a 2xx response whose
`closePrice` field is a JSON array makes `float()` raise `TypeError`,
which the two handlers (`requests.exceptions.RequestException` and
`(ValueError, KeyError)`) do not catch, so `get_stock_price` raises to
the caller; the failure modes the claim lists (network error, non-2xx
status via `raise_for_status`, unparseable body, missing field) do
return `Unavailable`. -/
theorem get_stock_price_typeerror_escape :
    get_stock_price (FetchOutcome.ok (some JsonValue.jarr)) =
      Except.error PyError.typeError ∧
    get_stock_price FetchOutcome.netErr = Except.ok none ∧
    get_stock_price FetchOutcome.httpErr = Except.ok none ∧
    get_stock_price FetchOutcome.badJson = Except.ok none ∧
    get_stock_price (FetchOutcome.ok none) = Except.ok none ∧
    get_stock_price (FetchOutcome.ok (some JsonValue.jnull)) =
      Except.ok none :=
  ⟨rfl, rfl, rfl, rfl, rfl, rfl⟩

end StockAlarm
